import Mathlib

/-!
Shallow embedding of the ESP32-Simple-Timer library (src/Timer.hpp,
src/Timer.cpp).

The C++ `Timer` class holds four fields:
  uint64_t mMillisStartPeriod;      -- start of the current period (ms)
  uint32_t mMillisInterval;         -- configured interval (ms)
  bool     mOverrideIntervalReached;
  bool     mActivated;
The external clock `millis()` returns a `uint64_t`; every method that reads
the clock is modelled as a function taking the current clock value `now`.
Machine integers are modelled as `Nat` with explicit `% 2^64` where the C++
arithmetic is performed in `uint64_t` and can wrap.

The float/double helpers `SecToMillis` / `MinToMillis` are modelled over `ℚ`:
a `float` argument converts to `double` exactly, and the product of a float
(24-bit significand) with the `uint16_t` constants 1000 / 60000 (≤ 16 bits)
has at most 40 significant bits, so the `double` (53-bit) multiplication is
exact; the comparisons against 0 and `u32::MAX` (32 bits, exact in `double`)
and the truncating cast are therefore modelled faithfully by exact rational
arithmetic on the embedded value.
-/

namespace ESP32SimpleTimer

/-- Modulus of `uint64_t` arithmetic: 2^64. -/
def U64MOD : Nat := 18446744073709551616

/-- Largest `uint32_t` value, `numeric_limits<uint32_t>::max()`. -/
def U32MAX : Nat := 4294967295

/-- State of a C++ `Timer` object (src/Timer.hpp, private section). -/
structure Timer where
  mMillisStartPeriod : Nat
  mMillisInterval : Nat
  mOverrideIntervalReached : Bool
  mActivated : Bool
deriving Repr, DecidableEq

/-- SetInterval()-parameter `TIMER_CONTINUE = false` (src/Timer.hpp). -/
def TIMER_CONTINUE : Bool := false

/-- SetInterval()-parameter `TIMER_RESET = true` (src/Timer.hpp). -/
def TIMER_RESET : Bool := true

/-- `Timer::ResetInterval()` (src/Timer.cpp):
clears `mOverrideIntervalReached`, sets `mMillisStartPeriod = millis()`. -/
def ResetInterval (s : Timer) (now : Nat) : Timer :=
  { s with mOverrideIntervalReached := false, mMillisStartPeriod := now }

/-- `Timer::Timer(uint32_t intervalInMillis_)` (src/Timer.cpp): member
initialisers give `mMillisStartPeriod{millis()}`, `mOverrideIntervalReached
{false}`, `mActivated{true}`; the constructor stores the interval. -/
def mkTimer (intervalInMillis : Nat) (now : Nat) : Timer :=
  { mMillisStartPeriod := now
    mMillisInterval := intervalInMillis
    mOverrideIntervalReached := false
    mActivated := true }

/-- `Timer::Activate()` (src/Timer.cpp): `ResetInterval(); mActivated = true;`. -/
def Activate (s : Timer) (now : Nat) : Timer :=
  { ResetInterval s now with mActivated := true }

/-- `Timer::Deactivate()` (src/Timer.cpp): `ResetInterval(); mActivated = false;`. -/
def Deactivate (s : Timer) (now : Nat) : Timer :=
  { ResetInterval s now with mActivated := false }

/-- `Timer::Timer()` (src/Timer.cpp): delegates to
`Timer(numeric_limits<uint32_t>::max())` then calls `Deactivate()`; both
clock reads are taken at the same instant `now`. -/
def mkTimerDefault (now : Nat) : Timer :=
  Deactivate (mkTimer U32MAX now) now

/-- `Timer::IntervalReached()` (src/Timer.cpp): returns the bool result
paired with the post-state.  The C++ comparison
`(mMillisStartPeriod + mMillisInterval) < millis()` adds a `uint64_t` and a
`uint32_t` in `uint64_t` arithmetic, hence the `% U64MOD`. -/
def IntervalReached (s : Timer) (now : Nat) : Bool × Timer :=
  if s.mActivated = false then (false, s)
  else if s.mOverrideIntervalReached = true ∨
      (s.mMillisStartPeriod + s.mMillisInterval) % U64MOD < now then
    (true, ResetInterval s now)
  else (false, s)

/-- `Timer::SetInterval(uint32_t, bool)` (src/Timer.cpp): stores the
interval, calls `ResetInterval()` when `TIMER_RESET == resetTimer_`, then
sets `mActivated = true`. -/
def SetInterval (s : Timer) (millisInterval : Nat) (resetTimer : Bool)
    (now : Nat) : Timer :=
  let s1 : Timer := { s with mMillisInterval := millisInterval }
  let s2 : Timer := if TIMER_RESET = resetTimer then ResetInterval s1 now else s1
  { s2 with mActivated := true }

/-- `Timer::OverrideIntervalReached()` (src/Timer.cpp):
`mOverrideIntervalReached = true;` unconditionally. -/
def OverrideIntervalReached (s : Timer) : Timer :=
  { s with mOverrideIntervalReached := true }

/-- `NarrowConvertToUint32<T>` (src/Timer.hpp) instantiated at
`T = uint64_t`, the type of the argument expressions in
`TimeLeftInMillis` / `TimePassedInMillis`: `value_ < 0` is always false for
an unsigned `value_`, and `numeric_limits<uint64_t>::max() <
numeric_limits<uint32_t>::max()` is false, so only the saturation branch
remains. -/
def NarrowConvertToUint32u64 (v : Nat) : Nat :=
  if v > U32MAX then U32MAX else v

/-- `Timer::TimeLeftInMillis()` (src/Timer.cpp): the C++ expression
`mMillisStartPeriod + static_cast<int64_t>(mMillisInterval) - millis()` has
type `uint64_t` (the usual arithmetic conversions turn `uint64_t + int64_t`
into unsigned 64-bit arithmetic), so it wraps modulo 2^64; the wrapped value
is then passed to `NarrowConvertToUint32<uint64_t>`. -/
def TimeLeftInMillis (s : Timer) (now : Nat) : Nat :=
  NarrowConvertToUint32u64
    (((s.mMillisStartPeriod + s.mMillisInterval) % U64MOD + U64MOD
        - now % U64MOD) % U64MOD)

/-- `Timer::TimePassedInMillis()` (src/Timer.cpp):
`static_cast<int64_t>(millis()) - mMillisStartPeriod` is likewise `uint64_t`
arithmetic, wrapping modulo 2^64. -/
def TimePassedInMillis (s : Timer) (now : Nat) : Nat :=
  NarrowConvertToUint32u64
    ((now % U64MOD + U64MOD - s.mMillisStartPeriod % U64MOD) % U64MOD)

/-- `NarrowConvertToUint32<T>` (src/Timer.hpp) instantiated at `T = double`,
the type of the argument expressions in `SecToMillis` / `MinToMillis`:
negative values give 0, `numeric_limits<double>::max() <
numeric_limits<uint32_t>::max()` is false, values above `u32::MAX` saturate,
and `static_cast<uint32_t>` truncates toward zero (equal to the floor on the
non-negative branch it is reached in). -/
def NarrowConvertToUint32dbl (v : ℚ) : Nat :=
  if v < 0 then 0
  else if v > (U32MAX : ℚ) then U32MAX
  else (⌊v⌋).toNat

/-- `Timer::SecToMillis(float)` (src/Timer.cpp): multiplies by
`SEC_TO_MILLIS_MULTI = 1000` in `double` (exact, see module comment) and
narrows. -/
def SecToMillis (secondsToConvert : ℚ) : Nat :=
  NarrowConvertToUint32dbl (secondsToConvert * 1000)

/-- `Timer::MinToMillis(float)` (src/Timer.cpp): multiplies by
`MIN_TO_MILLIS_MULTI = 60000` in `double` (exact, see module comment) and
narrows. -/
def MinToMillis (minutesToConvert : ℚ) : Nat :=
  NarrowConvertToUint32dbl (minutesToConvert * 60000)

/-- Repeated polling of `IntervalReached` at a given sequence of clock
values: returns the list of results and the final state. -/
def pollList : Timer → List Nat → List Bool × Timer
  | s, [] => ([], s)
  | s, now :: rest =>
    let r := IntervalReached s now
    let rr := pollList r.2 rest
    (r.1 :: rr.1, rr.2)

/-- Helper: an inactive timer polls to false with no state change. -/
theorem intervalReached_inactive (s : Timer) (now : Nat)
    (h : s.mActivated = false) : IntervalReached s now = (false, s) := by
  simp [IntervalReached, h]

/-- Helper: an active timer whose fire condition holds polls to true and
performs the internal reset. -/
theorem intervalReached_active_true (s : Timer) (now : Nat)
    (hact : s.mActivated = true)
    (hcond : s.mOverrideIntervalReached = true ∨
      (s.mMillisStartPeriod + s.mMillisInterval) % U64MOD < now) :
    IntervalReached s now = (true, ResetInterval s now) := by
  unfold IntervalReached
  rw [if_neg (by simp [hact]), if_pos hcond]

/-- Helper: an active timer whose fire condition fails polls to false with
no state change. -/
theorem intervalReached_active_false (s : Timer) (now : Nat)
    (hact : s.mActivated = true)
    (hcond : ¬ (s.mOverrideIntervalReached = true ∨
      (s.mMillisStartPeriod + s.mMillisInterval) % U64MOD < now)) :
    IntervalReached s now = (false, s) := by
  unfold IntervalReached
  rw [if_neg (by simp [hact]), if_neg hcond]

/-- Helper: whenever a poll returns true, the post-state is the internal
reset of the pre-state. -/
theorem intervalReached_true_post (s : Timer) (now : Nat)
    (h : (IntervalReached s now).1 = true) :
    (IntervalReached s now).2 = ResetInterval s now := by
  by_cases hact : s.mActivated = true
  · by_cases hcond : (s.mOverrideIntervalReached = true ∨
        (s.mMillisStartPeriod + s.mMillisInterval) % U64MOD < now)
    · rw [intervalReached_active_true s now hact hcond]
    · rw [intervalReached_active_false s now hact hcond] at h
      simp at h
  · have hfalse : s.mActivated = false := by simpa using hact
    rw [intervalReached_inactive s now hfalse] at h
    simp at h

/-- C1: for every active timer state with no pending override and every
clock value `now`, `IntervalReached` returns true iff
`mOverrideIntervalReached = true` or `mMillisStartPeriod + mMillisInterval
< now` in 64-bit arithmetic, and when it returns true the post-state has
`mMillisStartPeriod = now` and `mOverrideIntervalReached = false` (all other
fields unchanged); in all other cases it returns false (the iff). -/
theorem C1_intervalReached_active_characterisation (s : Timer) (now : Nat)
    (hact : s.mActivated = true) ( _hov : s.mOverrideIntervalReached = false) :
    ((IntervalReached s now).1 = true ↔
      (s.mOverrideIntervalReached = true ∨
        (s.mMillisStartPeriod + s.mMillisInterval) % U64MOD < now)) ∧
    ((IntervalReached s now).1 = true →
      (IntervalReached s now).2 =
        { s with mMillisStartPeriod := now,
                 mOverrideIntervalReached := false }) := by
  constructor
  · constructor
    · intro h
      by_cases hcond : (s.mOverrideIntervalReached = true ∨
          (s.mMillisStartPeriod + s.mMillisInterval) % U64MOD < now)
      · exact hcond
      · rw [intervalReached_active_false s now hact hcond] at h
        simp at h
    · intro hcond
      rw [intervalReached_active_true s now hact hcond]
  · intro h
    rw [intervalReached_true_post s now h]
    rfl

/-- C1 witness: at the concrete active, override-free state with period
start 0 and interval 5, polled at clock 10, the poll fires and the
post-state equals the reset state. -/
theorem C1_witness :
    (IntervalReached (mkTimer 5 0) 10).1 = true ∧
    (IntervalReached (mkTimer 5 0) 10).2 = mkTimer 5 10 := by
  have h := C1_intervalReached_active_characterisation (mkTimer 5 0) 10 rfl rfl
  have ht : (IntervalReached (mkTimer 5 0) 10).1 = true :=
    h.1.mpr (Or.inr (by decide))
  exact ⟨ht, h.2 ht⟩

/-- C2 counterexample: the claim says a poll at exactly I milliseconds
elapsed returns true (for interval 120000 started at t = 0, the poll at
t = 120000); the code's strict comparison `<` makes that poll return
false. -/
theorem C2_counterexample :
    ¬ (IntervalReached (mkTimer 120000 0) 120000).1 = true := by decide

/-- C2 (amended): for an active timer with no pending override, with the
period bound and the poll instant inside the 64-bit clock range, a poll at
or before `period_start + I` returns false and changes nothing; a poll
strictly after `period_start + I` returns true, the new period starts at
the poll time (not at the old start plus I), and an immediate re-poll at
the same instant returns false (true is returned exactly once); in
particular, for interval 120000 started at t = 0, the poll at t = 120000
returns false and the poll at t = 120001 returns true. -/
theorem C2_amended_strict_boundary (s : Timer) (now : Nat)
    (hact : s.mActivated = true) (hov : s.mOverrideIntervalReached = false)
    (hnw : s.mMillisStartPeriod + s.mMillisInterval < U64MOD)
    (hnw2 : now + s.mMillisInterval < U64MOD) :
    (now ≤ s.mMillisStartPeriod + s.mMillisInterval →
      IntervalReached s now = (false, s)) ∧
    (s.mMillisStartPeriod + s.mMillisInterval < now →
      IntervalReached s now =
        (true, { s with mMillisStartPeriod := now,
                        mOverrideIntervalReached := false }) ∧
      (IntervalReached
        { s with mMillisStartPeriod := now,
                 mOverrideIntervalReached := false } now).1 = false) := by
  have hmod : (s.mMillisStartPeriod + s.mMillisInterval) % U64MOD
      = s.mMillisStartPeriod + s.mMillisInterval := Nat.mod_eq_of_lt hnw
  constructor
  · intro hle
    refine intervalReached_active_false s now hact (not_or.mpr ⟨?_, ?_⟩)
    · simp [hov]
    · rw [hmod]
      exact not_lt.mpr hle
  · intro hlt
    refine ⟨?_, ?_⟩
    · have := intervalReached_active_true s now hact
        (Or.inr (by rw [hmod]; exact hlt))
      exact this
    · set s2 : Timer := { s with mMillisStartPeriod := now,
                                 mOverrideIntervalReached := false } with hs2
      have hact2 : s2.mActivated = true := hact
      have hcond2 : ¬ (s2.mOverrideIntervalReached = true ∨
          (s2.mMillisStartPeriod + s2.mMillisInterval) % U64MOD < now) := by
        rw [hs2]
        simp only [not_or]
        refine ⟨by simp, ?_⟩
        rw [Nat.mod_eq_of_lt hnw2]
        exact not_lt.mpr (Nat.le_add_right now s.mMillisInterval)
      rw [intervalReached_active_false s2 now hact2 hcond2]

/-- C2 witness: the amended statement applied to the concrete scenario of
the spec: interval 120000 started at t = 0, polls at t = 120000 and
t = 120001, with an immediate re-poll after firing. -/
theorem C2_witness :
    IntervalReached (mkTimer 120000 0) 120000 = (false, mkTimer 120000 0) ∧
    IntervalReached (mkTimer 120000 0) 120001 =
      (true, mkTimer 120000 120001) ∧
    (IntervalReached (mkTimer 120000 120001) 120001).1 = false := by
  have h1 := C2_amended_strict_boundary (mkTimer 120000 0) 120000 rfl rfl
    (by decide) (by decide)
  have h2 := C2_amended_strict_boundary (mkTimer 120000 0) 120001 rfl rfl
    (by decide) (by decide)
  exact ⟨h1.1 (by decide), (h2.2 (by decide)).1, (h2.2 (by decide)).2⟩

/-- C3: an inactive timer polls to false at every clock value of any poll
sequence, and the state after the whole sequence is unchanged. -/
theorem C3_inactive_always_false (s : Timer) (hin : s.mActivated = false)
    (nows : List Nat) :
    pollList s nows = (List.replicate nows.length false, s) := by
  induction nows with
  | nil => simp [pollList]
  | cons n rest ih =>
    simp [pollList, intervalReached_inactive s n hin, ih, List.replicate_succ]

/-- C3 witness: a concrete deactivated timer polled three times, at clock
values before, at, and far past the period bound, yields false each time
and is left unchanged. -/
theorem C3_witness :
    (Deactivate (mkTimer 5 0) 0).mActivated = false ∧
    pollList (Deactivate (mkTimer 5 0) 0) [0, 10, 1000000] =
      ([false, false, false], Deactivate (mkTimer 5 0) 0) := by
  refine ⟨rfl, ?_⟩
  exact C3_inactive_always_false (Deactivate (mkTimer 5 0) 0) rfl
    [0, 10, 1000000]

/-- C4: every operation that resets the period start — `Activate`,
`Deactivate`, `ResetInterval`, `SetInterval` with `TIMER_RESET`, and a
true-returning `IntervalReached` — leaves `mOverrideIntervalReached =
false`. -/
theorem C4_reset_clears_override (s : Timer) (now i : Nat) :
    (Activate s now).mOverrideIntervalReached = false ∧
    (Deactivate s now).mOverrideIntervalReached = false ∧
    (ResetInterval s now).mOverrideIntervalReached = false ∧
    (SetInterval s i TIMER_RESET now).mOverrideIntervalReached = false ∧
    ((IntervalReached s now).1 = true →
      (IntervalReached s now).2.mOverrideIntervalReached = false) := by
  refine ⟨rfl, rfl, rfl, rfl, ?_⟩
  intro h
  rw [intervalReached_true_post s now h]
  rfl

/-- C4 witness: the override-clearing consequence applied to a concrete
true-returning poll (period start 0, interval 5, clock 10) on a timer whose
override flag was set beforehand. -/
theorem C4_witness :
    (IntervalReached (OverrideIntervalReached (mkTimer 5 0)) 10).1 = true ∧
    (IntervalReached (OverrideIntervalReached (mkTimer 5 0))
      10).2.mOverrideIntervalReached = false := by
  have h := C4_reset_clears_override (OverrideIntervalReached (mkTimer 5 0)) 10 7
  exact ⟨by decide, h.2.2.2.2 (by decide)⟩

/-- C5: `SetInterval` stores the interval and leaves the timer active
regardless of prior state; with `TIMER_RESET` it sets the period start to
the clock value and clears the override flag, with `TIMER_CONTINUE` it
leaves the period start unchanged. -/
theorem C5_setInterval_effects (s : Timer) (i now : Nat) :
    (SetInterval s i TIMER_RESET now).mMillisInterval = i ∧
    (SetInterval s i TIMER_RESET now).mActivated = true ∧
    (SetInterval s i TIMER_RESET now).mMillisStartPeriod = now ∧
    (SetInterval s i TIMER_RESET now).mOverrideIntervalReached = false ∧
    (SetInterval s i TIMER_CONTINUE now).mMillisInterval = i ∧
    (SetInterval s i TIMER_CONTINUE now).mActivated = true ∧
    (SetInterval s i TIMER_CONTINUE now).mMillisStartPeriod =
      s.mMillisStartPeriod :=
  ⟨rfl, rfl, rfl, rfl, rfl, rfl, rfl⟩

/-- C6: evaluation of the code at the failing input.  Overriding a
deactivated timer and then reactivating it with `SetInterval(…,
TIMER_CONTINUE)` makes the next poll return true at zero elapsed time,
whereas the identical timer without the override call polls to false — a
visible effect of calling `OverrideIntervalReached` on an inactive timer,
contradicting the claim (and the header documentation "Does only have an
effect if timer is active"): `SetInterval` with `TIMER_CONTINUE` does not
clear `mOverrideIntervalReached`. -/
theorem C6_override_inactive_visible_effect :
    (IntervalReached
      (SetInterval (OverrideIntervalReached (Deactivate (mkTimer 5 0) 0)) 5
        TIMER_CONTINUE 0) 0).1 = true ∧
    (IntervalReached
      (SetInterval (Deactivate (mkTimer 5 0) 0) 5 TIMER_CONTINUE 0) 0).1 =
      false := by decide

/-- C7: evaluation of the code at the failing input.  With period start 0,
interval 5 and clock 10 the mathematical value `period_start +
interval_millis - now = -5` is negative, but the C++ expression is computed
in unsigned 64-bit arithmetic, wraps to 2^64 - 5, and
`NarrowConvertToUint32<uint64_t>` saturates it to `u32::MAX`: the code
returns 4294967295 where the claim requires 0. -/
theorem C7_timeLeft_underflow_returns_u32max :
    TimeLeftInMillis (mkTimer 5 0) 10 = U32MAX ∧ U32MAX = 4294967295 := by
  decide

/-- C9: deactivating and then activating at time t yields exactly the state
of a timer freshly constructed with the same interval at time t (active,
override cleared, period start t, interval preserved), so all subsequent
behaviour coincides. -/
theorem C9_deactivate_activate_eq_fresh (s : Timer) (t1 t : Nat) :
    Activate (Deactivate s t1) t = mkTimer s.mMillisInterval t := rfl

/-- C10: whenever `IntervalReached` returns false — timer inactive, or no
override pending and the interval not yet elapsed — the state is left
exactly as it was before the call. -/
theorem C10_false_poll_preserves_state (s : Timer) (now : Nat)
    (h : (IntervalReached s now).1 = false) :
    (IntervalReached s now).2 = s := by
  by_cases hact : s.mActivated = true
  · by_cases hcond : (s.mOverrideIntervalReached = true ∨
        (s.mMillisStartPeriod + s.mMillisInterval) % U64MOD < now)
    · rw [intervalReached_active_true s now hact hcond] at h
      simp at h
    · rw [intervalReached_active_false s now hact hcond]
  · have hfalse : s.mActivated = false := by simpa using hact
    rw [intervalReached_inactive s now hfalse]

/-- C10 witness: a concrete false-returning poll (period start 0, interval
100, clock 50) leaves the state untouched. -/
theorem C10_witness :
    (IntervalReached (mkTimer 100 0) 50).1 = false ∧
    (IntervalReached (mkTimer 100 0) 50).2 = mkTimer 100 0 :=
  ⟨by decide, C10_false_poll_preserves_state (mkTimer 100 0) 50 (by decide)⟩

/-- C8: `SecToMillis` multiplies by 1000 and `MinToMillis` by 60000, then
both apply the shared saturating clamp to `u32`: a negative product yields
0, a product above `u32::MAX` yields `u32::MAX`, and an in-range product
truncates toward zero (floor of the non-negative value); concretely
`SecToMillis 5 = 5000` and `MinToMillis 2 = 120000`. -/
theorem C8_unit_conversions :
    SecToMillis 5 = 5000 ∧ MinToMillis 2 = 120000 ∧
    (∀ x : ℚ, x * 1000 < 0 → SecToMillis x = 0) ∧
    (∀ x : ℚ, (U32MAX : ℚ) < x * 1000 → SecToMillis x = U32MAX) ∧
    (∀ x : ℚ, 0 ≤ x * 1000 → x * 1000 ≤ (U32MAX : ℚ) →
      SecToMillis x = (⌊x * 1000⌋).toNat) ∧
    (∀ x : ℚ, x * 60000 < 0 → MinToMillis x = 0) ∧
    (∀ x : ℚ, (U32MAX : ℚ) < x * 60000 → MinToMillis x = U32MAX) ∧
    (∀ x : ℚ, 0 ≤ x * 60000 → x * 60000 ≤ (U32MAX : ℚ) →
      MinToMillis x = (⌊x * 60000⌋).toNat) := by
  have hcast : (0 : ℚ) ≤ (U32MAX : ℚ) := by
    norm_num [U32MAX]
  refine ⟨?_, ?_, ?_, ?_, ?_, ?_, ?_, ?_⟩
  · norm_num [SecToMillis, NarrowConvertToUint32dbl, U32MAX]
    decide
  · norm_num [MinToMillis, NarrowConvertToUint32dbl, U32MAX]
    decide
  · intro x hx
    unfold SecToMillis NarrowConvertToUint32dbl
    rw [if_pos hx]
  · intro x hx
    unfold SecToMillis NarrowConvertToUint32dbl
    rw [if_neg (not_lt.mpr (le_trans hcast hx.le)), if_pos hx]
  · intro x h0 h1
    unfold SecToMillis NarrowConvertToUint32dbl
    rw [if_neg (not_lt.mpr h0), if_neg (not_lt.mpr h1)]
  · intro x hx
    unfold MinToMillis NarrowConvertToUint32dbl
    rw [if_pos hx]
  · intro x hx
    unfold MinToMillis NarrowConvertToUint32dbl
    rw [if_neg (not_lt.mpr (le_trans hcast hx.le)), if_pos hx]
  · intro x h0 h1
    unfold MinToMillis NarrowConvertToUint32dbl
    rw [if_neg (not_lt.mpr h0), if_neg (not_lt.mpr h1)]

/-- C8 witness: the clamp branches applied at concrete inputs: a negative
argument clamps to 0, 4294968 seconds (product 4294968000 > u32::MAX)
saturates to `u32::MAX`, 7/2 seconds truncates to 3500 ms, and the minute
conversions clamp likewise. -/
theorem C8_witness :
    SecToMillis (-3) = 0 ∧ SecToMillis 4294968 = U32MAX ∧
    SecToMillis (7/2) = 3500 ∧ MinToMillis (-1) = 0 ∧
    MinToMillis 71583 = U32MAX := by
  obtain ⟨-, -, hneg, hsat, hmid, hnegm, hsatm, -⟩ := C8_unit_conversions
  refine ⟨hneg (-3) (by norm_num), hsat 4294968 (by norm_num [U32MAX]), ?_,
    hnegm (-1) (by norm_num), hsatm 71583 (by norm_num [U32MAX])⟩
  rw [hmid (7/2) (by norm_num) (by norm_num [U32MAX])]
  norm_num
  decide

end ESP32SimpleTimer
